import Mathlib

/-!
Verification of the order-management backend in `server.js`
(repository onlydivu-panel).

The file embeds, as executable Lean definitions, the pieces of the source
that the properties below are about:

* the line-item normalizer and total aggregator `buildParsedItems`;
* the order routes (`POST /api/orders`, `PUT /api/orders/:id`,
  `PATCH /api/orders/:id/status`, `DELETE /api/orders/:id`) and the
  product-creation route (`POST /api/products`), modelled as pure
  functions from a request plus an order store to a new store and an
  HTTP response.

JavaScript's dynamically typed request values are modelled by `JSVal`;
JS numbers are modelled by exact rationals (`ℚ`), with `NaN` represented
by `Option.none` in `toNumber`'s result.  IEEE-754 rounding of doubles is
not modelled: arithmetic on amounts is exact.  Timestamps (`createdAt`),
Mongo ObjectId casting and save-time schema validation are outside the
scope of the properties and are not modelled.

`server.js` in the repository contains two revisions of the same server
concatenated; where the two disagree (the delete route's not-found
response, the product route's required fields) the embedding follows the
later revision, which is the one the specification describes; each
definition's doc comment cites the exact lines it embeds.
-/

/-- A JavaScript request value: `undefined`, `null`, a (non-`NaN`) number,
`NaN`, a string, or a boolean.  Numbers are exact rationals. -/
inductive JSVal where
  | undef : JSVal
  | null : JSVal
  | num (q : ℚ) : JSVal
  | nan : JSVal
  | str (s : String) : JSVal
  | bool (b : Bool) : JSVal
deriving DecidableEq, Repr

/-- JavaScript truthiness: `undefined`, `null`, `0`, `NaN`, `""` and
`false` are falsy; everything else is truthy. -/
def JSVal.truthy : JSVal → Bool
  | .undef => false
  | .null => false
  | .num q => q != 0
  | .nan => false
  | .str s => s != ""
  | .bool b => b

/-- JavaScript loose equality with `null` (`x == null`): true exactly for
`null` and `undefined`. -/
def JSVal.isNullish : JSVal → Bool
  | .undef => true
  | .null => true
  | _ => false

/-- Numeric value of a list of decimal digit characters. -/
def digitsToNat : List Char → ℕ
  | [] => 0
  | c :: cs => (c.toNat - 48) * 10 ^ cs.length + digitsToNat cs

/-- Strip leading and trailing whitespace from a character list. -/
def jsTrimList (cs : List Char) : List Char :=
  ((cs.dropWhile Char.isWhitespace).reverse.dropWhile Char.isWhitespace).reverse

/-- JavaScript's string trimming (as `String.prototype.trim` and the
whitespace stripping inside `Number`): drop whitespace at both ends. -/
def jsTrim (s : String) : String :=
  ⟨jsTrimList s.toList⟩

/-- `Number(s)` for a string `s`: trim whitespace, the empty string is `0`,
otherwise an optional sign followed by decimal digits with an optional
fractional part; anything else is `NaN` (`none`).  Exponent, hexadecimal
and `Infinity` literals are outside the inputs the properties exercise
and parse to `NaN` here. -/
def jsStrToNum (s : String) : Option ℚ :=
  let t := jsTrimList s.toList
  if t = [] then some 0
  else
    let signedBody : ℚ × List Char :=
      match t with
      | '-' :: rest => (-1, rest)
      | '+' :: rest => (1, rest)
      | cs => (1, cs)
    let sign := signedBody.1
    let body := signedBody.2
    let ip := body.takeWhile Char.isDigit
    match body.dropWhile Char.isDigit with
    | [] =>
      if ip.isEmpty then none
      else some (sign * digitsToNat ip)
    | '.' :: fp =>
      if fp.all Char.isDigit && !(ip.isEmpty && fp.isEmpty) then
        some (sign * ((digitsToNat ip : ℚ) + digitsToNat fp / 10 ^ fp.length))
      else none
    | _ => none

/-- JavaScript's `Number(v)` coercion.  `none` stands for `NaN`. -/
def JSVal.toNumber : JSVal → Option ℚ
  | .undef => none
  | .null => some 0
  | .num q => some q
  | .nan => none
  | .str s => jsStrToNum s
  | .bool b => some (if b then 1 else 0)

/-- `Number(v) || d`: the coerced number unless it is falsy (`NaN` or `0`),
in which case the default `d`.  This is the defaulting idiom of
`buildParsedItems` (server.js lines 428-429, 433). -/
def numOr (v : JSVal) (d : ℚ) : ℚ :=
  match v.toNumber with
  | none => d
  | some q => if q = 0 then d else q

/-- A raw line item from an untrusted request body: each field the
normalizer reads, with `undef` standing for an absent field. -/
structure RawItem where
  productId : JSVal
  productName : JSVal
  mrp : JSVal
  price : JSVal
  qty : JSVal
  note : JSVal
deriving DecidableEq, Repr

/-- A canonical order line item as produced by the normalizer
(the object literal at server.js lines 430-438). -/
structure ParsedItem where
  productId : JSVal
  productName : JSVal
  mrp : ℚ
  price : ℚ
  qty : ℚ
  lineTotal : ℚ
  note : JSVal
deriving DecidableEq, Repr

/-- The normalizer's per-item mapping: the arrow function passed to
`items.map` in `buildParsedItems` (server.js lines 427-439). -/
def parseItem (item : RawItem) : ParsedItem :=
  let qty := numOr item.qty 1
  let price := numOr item.price 0
  { productId := if item.productId.truthy then item.productId else .null
    productName := item.productName
    mrp := numOr item.mrp 0
    price := price
    qty := qty
    lineTotal := price * qty
    note := if item.note.truthy then item.note else .str "" }

/-- `x || 0` on an already-numeric `x`, as the aggregator applies to each
`lineTotal` (server.js line 441). -/
def qOrZero (q : ℚ) : ℚ :=
  if q = 0 then 0 else q

/-- Result record of `buildParsedItems` (server.js line 442). -/
structure BuildResult where
  parsedItems : List ParsedItem
  totalAmount : ℚ
deriving DecidableEq, Repr

/-- `buildParsedItems` (server.js lines 426-443): normalize every raw item
and reduce the line totals to `totalAmount`. -/
def buildParsedItems (items : List RawItem) : BuildResult :=
  let parsedItems := items.map parseItem
  let totalAmount := parsedItems.foldl (fun sum it => sum + qOrZero it.lineTotal) 0
  { parsedItems := parsedItems, totalAmount := totalAmount }

/-- An order identifier (a Mongo `_id`, handled as an opaque string). -/
abbrev OrderId := String

/-- A persisted order record: the fields of `orderSchema`
(server.js lines 350-361) that the properties concern.  `status` is kept
as a raw string so that "an invalid value is never persisted" is a
statement, not a typing artifact. -/
structure StoredOrder where
  shopId : JSVal
  shopName : JSVal
  items : List ParsedItem
  totalAmount : ℚ
  status : String
deriving DecidableEq, Repr

/-- The order collection: records keyed by `_id`. -/
abbrev OrderStore := List (OrderId × StoredOrder)

/-- Look an order up by `_id` (first record with that key, as Mongo lookups
behave on the unique `_id` index). -/
def findById (db : OrderStore) (id : OrderId) : Option StoredOrder :=
  (db.find? (fun e => e.1 = id)).map (·.2)

/-- `findByIdAndUpdate` / `$set` on the matching record: rewrite the record
with `_id = id` through `f`, leaving every other record and every field
`f` does not touch unchanged. -/
def updateById (db : OrderStore) (id : OrderId) (f : StoredOrder → StoredOrder) :
    OrderStore :=
  db.map (fun e => if e.1 = id then (e.1, f e.2) else e)

/-- `deleteOne({_id: id})`: remove the first record with the given key. -/
def removeById : OrderStore → OrderId → OrderStore
  | [], _ => []
  | e :: rest, id => if e.1 = id then rest else e :: removeById rest id

/-- An HTTP response as the properties observe it: the status code and,
when a route echoes the (updated) order back, that order. -/
structure OrderResponse where
  httpStatus : ℕ
  body : Option StoredOrder
deriving DecidableEq, Repr

/-- The request body `{shopId, shopName, items}` of the order create and
full-replace routes.  `itemsIsArray` is `Array.isArray(items)`; when the
field is not an array its elements are irrelevant and `items` is read
only when `itemsIsArray` is true. -/
structure OrderReqBody where
  shopId : JSVal
  shopName : JSVal
  itemsIsArray : Bool
  items : List RawItem
deriving DecidableEq, Repr

/-- The shared guard of `POST /api/orders` and `PUT /api/orders/:id`:
`!shopId || !Array.isArray(items) || items.length === 0`
(server.js lines 449, 466). -/
def orderBodyInvalid (b : OrderReqBody) : Bool :=
  !b.shopId.truthy || !b.itemsIsArray || b.items.isEmpty

/-- `POST /api/orders` (server.js lines 446-461): reject with 400 on the
shared guard, otherwise normalize the items and insert a new order.
`status` is not set by the handler; the schema default `"Pending"`
(server.js lines 355-359) fills it at save time.  `newId` is the `_id`
Mongo generates for the insert. -/
def postOrder (db : OrderStore) (newId : OrderId) (b : OrderReqBody) :
    OrderStore × OrderResponse :=
  if orderBodyInvalid b then
    (db, { httpStatus := 400, body := none })
  else
    let r := buildParsedItems b.items
    let order : StoredOrder :=
      { shopId := b.shopId, shopName := b.shopName, items := r.parsedItems,
        totalAmount := r.totalAmount, status := "Pending" }
    (db ++ [(newId, order)], { httpStatus := 201, body := some order })

/-- `PUT /api/orders/:id` (server.js lines 463-479): same guard as create,
then `findByIdAndUpdate` setting `shopId`, `shopName`, `items` and
`totalAmount`; 404 when no record matches.  Fields the update document
does not mention — in particular `status` — are left as stored. -/
def putOrder (db : OrderStore) (id : OrderId) (b : OrderReqBody) :
    OrderStore × OrderResponse :=
  if orderBodyInvalid b then
    (db, { httpStatus := 400, body := none })
  else
    match findById db id with
    | none => (db, { httpStatus := 404, body := none })
    | some o =>
      let r := buildParsedItems b.items
      let o2 : StoredOrder :=
        { o with shopId := b.shopId, shopName := b.shopName,
                 items := r.parsedItems, totalAmount := r.totalAmount }
      (updateById db id (fun u =>
        { u with shopId := b.shopId, shopName := b.shopName,
                 items := r.parsedItems, totalAmount := r.totalAmount }),
       { httpStatus := 200, body := some o2 })

/-- `["Pending", "Delivered", "Cancelled"].includes(status)`
(server.js line 498): strict equality against the three literals, so any
non-string value fails. -/
def validStatusVal (v : JSVal) : Bool :=
  v = .str "Pending" || v = .str "Delivered" || v = .str "Cancelled"

/-- The string carried by a `JSVal`, for a value already known to be one
of the three status literals. -/
def statusString : JSVal → String
  | .str s => s
  | _ => ""

/-- `PATCH /api/orders/:id/status` (server.js lines 495-508): 400 without
touching the store when the body's `status` is not one of the three
literals; otherwise `findByIdAndUpdate` setting only `status`, with 404
when no record matches.  No check against the order's current status is
performed. -/
def patchOrderStatus (db : OrderStore) (id : OrderId) (status : JSVal) :
    OrderStore × OrderResponse :=
  if validStatusVal status then
    match findById db id with
    | none => (db, { httpStatus := 404, body := none })
    | some o =>
      let o2 := { o with status := statusString status }
      (updateById db id (fun u => { u with status := statusString status }),
       { httpStatus := 200, body := some o2 })
  else
    (db, { httpStatus := 400, body := none })

/-- The delete route's response: HTTP status plus the `deletedCount` the
body reports. -/
structure DeleteResponse where
  httpStatus : ℕ
  deletedCount : ℕ
deriving DecidableEq, Repr

/-- `DELETE /api/orders/:id` (server.js lines 510-524): trim the id
parameter, `deleteOne({_id: id})`, then 200 with the count when a record
was removed and 404 with `deletedCount: 0` otherwise. -/
def deleteOrder (db : OrderStore) (rawId : String) :
    OrderStore × DeleteResponse :=
  let id := jsTrim rawId
  match findById db id with
  | some _ => (removeById db id, { httpStatus := 200, deletedCount := 1 })
  | none => (db, { httpStatus := 404, deletedCount := 0 })

/-- The request body `{name, mrp, price, salePrice}` of `POST /api/products`. -/
structure ProductReqBody where
  name : JSVal
  mrp : JSVal
  price : JSVal
  salePrice : JSVal
deriving DecidableEq, Repr

/-- A product record as `POST /api/products` builds it (server.js lines
410-415).  Numeric fields are `Option ℚ` with `none` for `NaN`; `price`
and `salePrice` are additionally optional (`undefined` when the request
omitted them, matching the optional schema fields at lines 335-336). -/
structure Product where
  name : String
  mrp : Option ℚ
  price : Option (Option ℚ)
  salePrice : Option (Option ℚ)
deriving DecidableEq, Repr

/-- `POST /api/products` (server.js lines 403-423, the later revision of
the route; the earlier revision at lines 110-131 also required `price`):
400 when `!name || mrp == null`; otherwise build the product from
`name.trim()`, `Number(mrp)`, and the two optional prices.  A truthy
non-string `name` makes `name.trim()` throw, which the catch turns into
500; no product is created then.  Save-time schema validation is not
modelled. -/
def postProduct (b : ProductReqBody) : Except ℕ Product :=
  if !b.name.truthy || b.mrp.isNullish then .error 400
  else
    match b.name with
    | .str s =>
      .ok { name := jsTrim s
            mrp := b.mrp.toNumber
            price := if b.price.isNullish then none else some b.price.toNumber
            salePrice := if b.salePrice.isNullish then none else some b.salePrice.toNumber }
    | _ => .error 500


/-- `v || null` applied twice gives the same value as applied once. -/
theorem truthy_or_null_idem (v : JSVal) :
    (if (if v.truthy then v else .null).truthy then (if v.truthy then v else .null)
     else JSVal.null) = (if v.truthy then v else .null) := by
  by_cases h : v.truthy = true
  · simp only [if_pos h]
  · simp only [if_neg h]
    rfl

/-- `v || ""` applied twice gives the same value as applied once. -/
theorem truthy_or_emptyStr_idem (v : JSVal) :
    (if (if v.truthy then v else .str "").truthy then (if v.truthy then v else .str "")
     else JSVal.str "") = (if v.truthy then v else .str "") := by
  by_cases h : v.truthy = true
  · simp only [if_pos h]
  · simp only [if_neg h]
    rfl

/-- Feeding a number back through the `Number(x) || 0` idiom is the identity. -/
theorem numOr_num_zero (q : ℚ) : numOr (.num q) 0 = q := by
  by_cases h : q = 0 <;> simp [numOr, JSVal.toNumber, h]

/-- The quantity default never produces `0`. -/
theorem numOr_one_ne_zero (v : JSVal) : numOr v 1 ≠ 0 := by
  unfold numOr
  match h : v.toNumber with
  | none => simp
  | some q => by_cases hq : q = 0 <;> simp [hq]

/-- Feeding a nonzero number back through `Number(x) || 1` is the identity. -/
theorem numOr_num_one (q : ℚ) (h : q ≠ 0) : numOr (.num q) 1 = q := by
  simp [numOr, JSVal.toNumber, h]

/-- `x || 0` is the identity on numbers. -/
theorem qOrZero_eq (q : ℚ) : qOrZero q = q := by
  unfold qOrZero
  split <;> simp_all

/-- The aggregator's fold computes the plain sum of line totals. -/
theorem foldl_lineTotals (l : List ParsedItem) (a : ℚ) :
    l.foldl (fun sum it => sum + qOrZero it.lineTotal) a
      = a + (l.map (fun it => it.lineTotal)).sum := by
  induction l generalizing a with
  | nil => simp
  | cons x xs ih =>
    rw [List.foldl_cons, ih, qOrZero_eq, List.map_cons, List.sum_cons]
    ring

/-- Lookup skips a head entry with a different key. -/
theorem findById_cons_ne (e : OrderId × StoredOrder) (rest : OrderStore)
    (id : OrderId) (h : ¬ e.1 = id) :
    findById (e :: rest) id = findById rest id := by
  simp only [findById]
  rw [List.find?_cons_of_neg _ (by simp [h])]

/-- Lookup returns a head entry with a matching key. -/
theorem findById_cons_eq (e : OrderId × StoredOrder) (rest : OrderStore)
    (id : OrderId) (h : e.1 = id) :
    findById (e :: rest) id = some e.2 := by
  simp only [findById]
  rw [List.find?_cons_of_pos _ (by simp [h])]
  rfl

/-- `updateById` on a non-empty store rewrites the head conditionally. -/
theorem updateById_cons (e : OrderId × StoredOrder) (rest : OrderStore)
    (id : OrderId) (f : StoredOrder → StoredOrder) :
    updateById (e :: rest) id f
      = (if e.1 = id then (e.1, f e.2) else e) :: updateById rest id f := rfl

/-- Updating a record by id is visible to a subsequent lookup of that id. -/
theorem findById_updateById (db : OrderStore) (id : OrderId)
    (f : StoredOrder → StoredOrder) :
    findById (updateById db id f) id = (findById db id).map f := by
  induction db with
  | nil => rfl
  | cons e rest ih =>
    by_cases h : e.1 = id
    · rw [updateById_cons, if_pos h, findById_cons_eq (e.1, f e.2) _ _ h,
          findById_cons_eq e _ _ h]
      rfl
    · rw [updateById_cons, if_neg h, findById_cons_ne _ _ _ h, findById_cons_ne _ _ _ h, ih]

/-- A key outside the store's key set looks up to nothing. -/
theorem findById_eq_none_of_not_mem (db : OrderStore) (id : OrderId)
    (h : id ∉ db.map Prod.fst) : findById db id = none := by
  induction db with
  | nil => rfl
  | cons e rest ih =>
    simp only [List.map_cons, List.mem_cons] at h
    push_neg at h
    rw [findById_cons_ne _ _ _ (fun hc => h.1 hc.symm)]
    exact ih h.2

/-- After `deleteOne` on a store with pairwise-distinct keys, the deleted
id no longer resolves. -/
theorem findById_removeById (db : OrderStore) (id : OrderId)
    (hnd : (db.map Prod.fst).Nodup) : findById (removeById db id) id = none := by
  induction db with
  | nil => rfl
  | cons e rest ih =>
    simp only [List.map_cons, List.nodup_cons] at hnd
    by_cases h : e.1 = id
    · simp only [removeById, if_pos h]
      exact findById_eq_none_of_not_mem rest id (h ▸ hnd.1)
    · simp only [removeById, if_neg h]
      rw [findById_cons_ne _ _ _ h]
      exact ih hnd.2

/-- Re-submission view of a normalized item: the raw item a client sends
back when it round-trips a canonical line item (numeric fields come back
as numbers, `productId`/`productName`/`note` as stored). -/
def rawOfParsed (p : ParsedItem) : RawItem :=
  { productId := p.productId, productName := p.productName,
    mrp := .num p.mrp, price := .num p.price, qty := .num p.qty,
    note := p.note }

/-- Normalizing an already-normalized item changes nothing. -/
theorem parseItem_rawOfParsed (i : RawItem) :
    parseItem (rawOfParsed (parseItem i)) = parseItem i := by
  simp only [parseItem, rawOfParsed]
  rw [truthy_or_null_idem, truthy_or_emptyStr_idem,
      numOr_num_zero (numOr i.mrp 0), numOr_num_zero (numOr i.price 0),
      numOr_num_one _ (numOr_one_ne_zero i.qty)]

/-- C2: the normalizer sets the canonical quantity to the parsed numeric
value of the raw `qty` field, and defaults it to `1` whenever `Number`
yields `NaN` or the parsed value is zero (so an explicit quantity of `0`
becomes `1`). -/
theorem parseItem_qty_default (i : RawItem) :
    ((i.qty.toNumber = none ∨ i.qty.toNumber = some 0) → (parseItem i).qty = 1) ∧
    (∀ q : ℚ, i.qty.toNumber = some q → q ≠ 0 → (parseItem i).qty = q) := by
  constructor
  · intro h
    rcases h with h | h <;> simp [parseItem, numOr, h]
  · intro q hq hne
    simp [parseItem, numOr, hq, hne]

/-- A concrete raw item with an explicit `qty` of `0`. -/
def rawItemQtyZero : RawItem :=
  { productId := .undef, productName := .str "Pen", mrp := .num 9,
    price := .num 3, qty := .num 0, note := .undef }

/-- Witness for C2: explicit `qty: 0` becomes `1`, a non-numeric string
becomes `1`, and a parsable nonzero quantity is kept. -/
theorem parseItem_qty_default_witness :
    (parseItem rawItemQtyZero).qty = 1 ∧
    (parseItem { rawItemQtyZero with qty := .str "two" }).qty = 1 ∧
    (parseItem { rawItemQtyZero with qty := .num 2 }).qty = 2 := by
  refine ⟨?_, ?_, ?_⟩
  · exact (parseItem_qty_default rawItemQtyZero).1 (Or.inr (by decide))
  · exact (parseItem_qty_default _).1 (Or.inl (by decide))
  · exact (parseItem_qty_default _).2 2 (by decide) (by decide)

/-- C3: the normalizer defaults the unit price to `0` when its parse
fails and the list price (`mrp`) to `0` when its parse fails; otherwise
each is the parsed numeric value. -/
theorem parseItem_price_mrp_default (i : RawItem) :
    (i.price.toNumber = none → (parseItem i).price = 0) ∧
    (i.mrp.toNumber = none → (parseItem i).mrp = 0) ∧
    (∀ q : ℚ, i.price.toNumber = some q → (parseItem i).price = q) ∧
    (∀ q : ℚ, i.mrp.toNumber = some q → (parseItem i).mrp = q) := by
  refine ⟨fun h => by simp [parseItem, numOr, h],
          fun h => by simp [parseItem, numOr, h], ?_, ?_⟩
  · intro q hq
    by_cases h0 : q = 0 <;> simp [parseItem, numOr, hq, h0]
  · intro q hq
    by_cases h0 : q = 0 <;> simp [parseItem, numOr, hq, h0]

/-- Witness for C3: missing `price` and non-numeric `mrp` default to `0`;
parsable values are kept. -/
theorem parseItem_price_mrp_default_witness :
    (parseItem { rawItemQtyZero with price := .undef }).price = 0 ∧
    (parseItem { rawItemQtyZero with mrp := .str "n/a" }).mrp = 0 ∧
    (parseItem { rawItemQtyZero with price := .num (5 / 2) }).price = 5 / 2 ∧
    (parseItem rawItemQtyZero).mrp = 9 := by
  refine ⟨?_, ?_, ?_, ?_⟩
  · exact (parseItem_price_mrp_default _).1 (by decide)
  · exact (parseItem_price_mrp_default _).2.1 (by decide)
  · exact (parseItem_price_mrp_default _).2.2.1 (5 / 2) rfl
  · exact (parseItem_price_mrp_default _).2.2.2 9 rfl

/-- C4: every normalized line item's `lineTotal` is exactly the product
of its post-defaulting unit price and quantity; no rounding or
currency-precision adjustment is applied (amounts are exact in the
model, matching the source's absence of any rounding step). -/
theorem parseItem_lineTotal (i : RawItem) :
    (parseItem i).lineTotal = (parseItem i).price * (parseItem i).qty := by
  simp [parseItem]

/-- C5: `totalAmount` is the sum of the normalized items' `lineTotal`
values (each passed through the `|| 0` guard, which is the identity on
numbers), and the empty sequence yields total `0`.  The aggregator is a
single left fold over the sequence. -/
theorem buildParsedItems_totalAmount (items : List RawItem) :
    (buildParsedItems items).totalAmount
      = ((buildParsedItems items).parsedItems.map (fun it => it.lineTotal)).sum ∧
    (buildParsedItems ([] : List RawItem)).totalAmount = 0 := by
  constructor
  · simp only [buildParsedItems]
    rw [foldl_lineTotals, zero_add]
  · rfl

/-- C10: normalization is idempotent — re-normalizing the normalizer's
own output (as re-submitted by a client) reproduces the same canonical
items and the same `totalAmount`. -/
theorem buildParsedItems_idempotent (items : List RawItem) :
    buildParsedItems ((buildParsedItems items).parsedItems.map rawOfParsed)
      = buildParsedItems items := by
  have hmap : ((items.map parseItem).map rawOfParsed).map parseItem
      = items.map parseItem := by
    rw [List.map_map, List.map_map]
    exact List.map_congr_left (fun a _ => parseItem_rawOfParsed a)
  simp only [buildParsedItems]
  rw [hmap]

/-- C1: a status-change request on an existing order is rejected with 400
and leaves the store untouched when the requested value is outside
{Pending, Delivered, Cancelled}; for a value inside the set the mutation
occurs and is accepted (200) with no condition on the order's current
status, so any-to-any transitions are permitted. -/
theorem patchOrderStatus_spec (db : OrderStore) (id : OrderId) (v : JSVal) :
    (validStatusVal v = false →
      patchOrderStatus db id v = (db, { httpStatus := 400, body := none })) ∧
    (validStatusVal v = true → ∀ s : String, v = .str s →
      ∀ o : StoredOrder, findById db id = some o →
        (patchOrderStatus db id v).2.httpStatus = 200 ∧
        findById (patchOrderStatus db id v).1 id = some { o with status := s }) := by
  constructor
  · intro h
    simp [patchOrderStatus, h]
  · intro hv s hs o ho
    subst hs
    simp only [patchOrderStatus, hv, if_true, ho]
    refine ⟨by trivial, ?_⟩
    rw [findById_updateById, ho]
    rfl

/-- A concrete stored order, deliberately in status `Delivered` so the
witnesses exercise a `Delivered → Pending` transition. -/
def sampleOrder : StoredOrder :=
  { shopId := .str "shop1", shopName := .str "Shop One",
    items := [], totalAmount := 0, status := "Delivered" }

/-- A one-order store. -/
def sampleDb : OrderStore := [("ord1", sampleOrder)]

/-- A valid order-request body with one raw line item. -/
def sampleBody : OrderReqBody :=
  { shopId := .str "shop1", shopName := .str "Shop One", itemsIsArray := true,
    items := [{ productId := .undef, productName := .str "Pen", mrp := .num 9,
                price := .num 3, qty := .num 2, note := .undef }] }

/-- Witness for C1: `"Shipped"` is rejected with 400 and the store is
unchanged; `"Pending"` is accepted on an order currently `Delivered`. -/
theorem patchOrderStatus_spec_witness :
    patchOrderStatus sampleDb "ord1" (.str "Shipped")
        = (sampleDb, { httpStatus := 400, body := none }) ∧
    (patchOrderStatus sampleDb "ord1" (.str "Pending")).2.httpStatus = 200 ∧
    findById (patchOrderStatus sampleDb "ord1" (.str "Pending")).1 "ord1"
        = some { sampleOrder with status := "Pending" } := by
  refine ⟨?_, ?_, ?_⟩
  · exact (patchOrderStatus_spec sampleDb "ord1" (.str "Shipped")).1 (by decide)
  · exact ((patchOrderStatus_spec sampleDb "ord1" (.str "Pending")).2 (by decide)
      "Pending" rfl sampleOrder rfl).1
  · exact ((patchOrderStatus_spec sampleDb "ord1" (.str "Pending")).2 (by decide)
      "Pending" rfl sampleOrder rfl).2

/-- C6: a full replace (PUT) of an existing order with a valid body
succeeds, re-normalizes the items and overwrites `shopId`, `shopName`,
`items` and `totalAmount`, while the stored `status` stays exactly the
order's previous status (it is not reset to `Pending`). -/
theorem putOrder_preserves_status (db : OrderStore) (id : OrderId) (b : OrderReqBody)
    (hb : orderBodyInvalid b = false) (o : StoredOrder)
    (ho : findById db id = some o) :
    (putOrder db id b).2.httpStatus = 200 ∧
    findById (putOrder db id b).1 id =
      some { shopId := b.shopId, shopName := b.shopName,
             items := (buildParsedItems b.items).parsedItems,
             totalAmount := (buildParsedItems b.items).totalAmount,
             status := o.status } := by
  simp only [putOrder, hb, Bool.false_eq_true, if_false, ho]
  refine ⟨by trivial, ?_⟩
  rw [findById_updateById, ho]
  rfl

/-- Witness for C6: replacing a `Delivered` order keeps it `Delivered`. -/
theorem putOrder_preserves_status_witness :
    (putOrder sampleDb "ord1" sampleBody).2.httpStatus = 200 ∧
    findById (putOrder sampleDb "ord1" sampleBody).1 "ord1" =
      some { shopId := sampleBody.shopId, shopName := sampleBody.shopName,
             items := (buildParsedItems sampleBody.items).parsedItems,
             totalAmount := (buildParsedItems sampleBody.items).totalAmount,
             status := "Delivered" } :=
  putOrder_preserves_status sampleDb "ord1" sampleBody (by decide) sampleOrder rfl

/-- C7: deleting an id that resolves to no record reports
`deletedCount: 0` with HTTP 404 and leaves the store unchanged; deleting
an existing order reports the removal (200, `deletedCount: 1`) and, on a
store with distinct keys, the id no longer resolves afterwards. -/
theorem deleteOrder_spec (db : OrderStore) (rawId : String) :
    (findById db (jsTrim rawId) = none →
      deleteOrder db rawId = (db, { httpStatus := 404, deletedCount := 0 })) ∧
    (∀ o : StoredOrder, findById db (jsTrim rawId) = some o →
      (deleteOrder db rawId).2 = { httpStatus := 200, deletedCount := 1 } ∧
      ((db.map Prod.fst).Nodup →
        findById (deleteOrder db rawId).1 (jsTrim rawId) = none)) := by
  constructor
  · intro h
    simp [deleteOrder, h]
  · intro o ho
    simp only [deleteOrder, ho]
    exact ⟨by trivial, fun hnd => findById_removeById db _ hnd⟩

/-- Witness for C7: a missing id gives 404 with `deletedCount: 0` and no
store change; an existing id is removed and reported. -/
theorem deleteOrder_spec_witness :
    deleteOrder sampleDb "missing"
        = (sampleDb, { httpStatus := 404, deletedCount := 0 }) ∧
    (deleteOrder sampleDb "ord1").2 = { httpStatus := 200, deletedCount := 1 } ∧
    findById (deleteOrder sampleDb "ord1").1 (jsTrim "ord1") = none := by
  refine ⟨?_, ?_, ?_⟩
  · exact (deleteOrder_spec sampleDb "missing").1 (by decide)
  · exact ((deleteOrder_spec sampleDb "ord1").2 sampleOrder (by decide)).1
  · exact ((deleteOrder_spec sampleDb "ord1").2 sampleOrder (by decide)).2 (by decide)

/-- C8: product creation answers 400 exactly when `name` is falsy
(missing/empty) or `mrp` is null/undefined; with a well-formed name and a
present `mrp` the product is created, and the optional `price` and
`salePrice` fields may both be absent without causing rejection. -/
theorem postProduct_validation (b : ProductReqBody) :
    (postProduct b = .error 400 ↔ (b.name.truthy = false ∨ b.mrp.isNullish = true)) ∧
    (∀ s : String, b.name = .str s → b.name.truthy = true → b.mrp.isNullish = false →
      postProduct b = .ok
        { name := jsTrim s, mrp := b.mrp.toNumber,
          price := if b.price.isNullish then none else some b.price.toNumber,
          salePrice := if b.salePrice.isNullish then none
                       else some b.salePrice.toNumber }) := by
  constructor
  · constructor
    · intro h
      by_contra hc
      push_neg at hc
      obtain ⟨h1, h2⟩ := hc
      have h1' : b.name.truthy = true := by
        cases hx : b.name.truthy
        · exact absurd hx h1
        · rfl
      have h2' : b.mrp.isNullish = false := by
        cases hx : b.mrp.isNullish
        · rfl
        · exact absurd hx h2
      have hg : (!b.name.truthy || b.mrp.isNullish) = false := by simp [h1', h2']
      unfold postProduct at h
      simp only [hg] at h
      simp at h
      rcases hb : b.name with _ | _ | q | _ | s | bb <;> rw [hb] at h <;> simp at h
    · intro h
      have hg : (!b.name.truthy || b.mrp.isNullish) = true := by
        rcases h with h | h <;> simp [h]
      simp [postProduct, hg]
  · intro s hs ht hm
    rw [hs] at ht
    unfold postProduct
    rw [hs]
    simp [ht, hm]

/-- A product request with a name and an `mrp` but neither price field. -/
def sampleProductBody : ProductReqBody :=
  { name := .str "Soap", mrp := .num 20, price := .undef, salePrice := .undef }

/-- Witness for C8: missing name gives 400; a body with both optional
price fields absent is still created. -/
theorem postProduct_validation_witness :
    postProduct { sampleProductBody with name := .undef } = .error 400 ∧
    postProduct sampleProductBody =
      .ok { name := "Soap", mrp := some 20, price := none, salePrice := none } := by
  constructor
  · exact (postProduct_validation _).1.mpr (Or.inl (by decide))
  · exact (postProduct_validation sampleProductBody).2 "Soap" rfl (by decide) (by decide)

/-- C9: order creation is rejected with 400 and creates nothing when
`shopId` is falsy or `items` is not an array or is empty; otherwise the
normalizer and aggregator run and a new order is appended with status
`Pending` (201). -/
theorem postOrder_spec (db : OrderStore) (newId : OrderId) (b : OrderReqBody) :
    (orderBodyInvalid b = true →
      postOrder db newId b = (db, { httpStatus := 400, body := none })) ∧
    (orderBodyInvalid b = false →
      postOrder db newId b =
        (db ++ [(newId,
          { shopId := b.shopId, shopName := b.shopName,
            items := (buildParsedItems b.items).parsedItems,
            totalAmount := (buildParsedItems b.items).totalAmount,
            status := "Pending" })],
         { httpStatus := 201,
           body := some
             { shopId := b.shopId, shopName := b.shopName,
               items := (buildParsedItems b.items).parsedItems,
               totalAmount := (buildParsedItems b.items).totalAmount,
               status := "Pending" } })) := by
  constructor <;> intro h <;> simp [postOrder, h]

/-- Witness for C9: empty `items` is rejected with 400 and the store is
unchanged; a valid body creates a `Pending` order. -/
theorem postOrder_spec_witness :
    postOrder [] "new1" { sampleBody with items := [] }
        = ([], { httpStatus := 400, body := none }) ∧
    (postOrder [] "new1" sampleBody).2.httpStatus = 201 ∧
    (postOrder [] "new1" sampleBody).1 =
      [("new1",
        { shopId := sampleBody.shopId, shopName := sampleBody.shopName,
          items := (buildParsedItems sampleBody.items).parsedItems,
          totalAmount := (buildParsedItems sampleBody.items).totalAmount,
          status := "Pending" })] := by
  refine ⟨?_, ?_, ?_⟩
  · exact (postOrder_spec [] "new1" _).1 (by decide)
  · rw [(postOrder_spec [] "new1" sampleBody).2 (by decide)]
  · rw [(postOrder_spec [] "new1" sampleBody).2 (by decide)]
    rfl
